import Mathlib

/-!
# Digi-tionary login screen: `frontend/src/App.jsx`

A shallow embedding of the three event handlers of the `App` component
(`connectWallet`, `handleSSOLogin`, `handleLogout`) and of its render function.

The handlers talk to collaborators that are not part of the repository: the
browser wallet (through `ethers`), the `siwe` library, `fetch`, `alert`,
`console.error` and `window.location`.  Each collaborator is a field of `Env`
that says how it answers (it returns a value or it throws); a handler run is a
value of `Eff`, the list of effects it performed, in order, together with the
way it ended.  The React state after a run is the starting state with the
`set...` calls of the trace applied in order.
-/

namespace Digitionary

/-! ## Values of the platform -/

/-- A thrown JavaScript value, seen through what the handlers read of it.
`nullish` is `null` or `undefined` (reading a property of it throws); for any
other value `message` is the string form of its `message` property (`none`
when the property is `undefined`) and `code` a provider error code. -/
inductive Thrown where
  | nullish
  | value (message : Option String) (code : Option Int)
  deriving DecidableEq, Repr

/-- How an awaited call of a collaborator ends. -/
inductive Outcome (α : Type) where
  | ok (v : α)
  | throws (err : Thrown)
  deriving DecidableEq, Repr

/-- A JavaScript Number, as far as `Number(bigint)` can produce one. -/
inductive JsNumber where
  | finite (n : Int)
  | posInf
  | negInf
  deriving DecidableEq, Repr

/-- Number of binary digits of `n`, by halving (`fuel` bounds the halvings). -/
def bitLengthAux : Nat → Nat → Nat
  | 0, _ => 0
  | fuel + 1, n => if n = 0 then 0 else bitLengthAux fuel (n / 2) + 1

/-- Number of binary digits of `n` (`0` for `0`). -/
def bitLength (n : Nat) : Nat := bitLengthAux n n

/-- Magnitude of the double nearest to the natural number `n`: `n` itself when
it has at most 53 binary digits, else `n` rounded to 53 significant binary
digits, ties to even; `none` when the rounded value needs more than 1024
binary digits, where the conversion overflows to infinity. -/
def roundToDouble (n : Nat) : Option Nat :=
  if n < 2 ^ 53 then some n
  else
    let e := bitLength n - 53
    let q := n / 2 ^ e
    let r := n % 2 ^ e
    let half := 2 ^ (e - 1)
    let q1 := if half < r ∨ (r = half ∧ q % 2 = 1) then q + 1 else q
    let m := q1 * 2 ^ e
    if bitLength m ≤ 1024 then some m else none

/-- The conversion `Number(b)` of a BigInt `b` (ECMAScript: the Number value
for the mathematical value of `b`). -/
def Number_ofBigInt (b : Int) : JsNumber :=
  match roundToDouble b.natAbs with
  | some m => JsNumber.finite (if b < 0 then -(m : Int) else (m : Int))
  | none => if b < 0 then JsNumber.negInf else JsNumber.posInf

/-- The escape `JSON.stringify` writes for one character of a string. -/
def jsonEscapeChar (c : Char) : String :=
  if c.toNat = 34 then "\\\""
  else if c.toNat = 92 then "\\\\"
  else if c.toNat = 8 then "\\b"
  else if c.toNat = 9 then "\\t"
  else if c.toNat = 10 then "\\n"
  else if c.toNat = 12 then "\\f"
  else if c.toNat = 13 then "\\r"
  else if c.toNat < 32 then
    "\\u00" ++ String.mk [Nat.digitChar (c.toNat / 16), Nat.digitChar (c.toNat % 16)]
  else String.singleton c

/-- The JSON text `JSON.stringify` produces for a string value. -/
def jsonQuote (s : String) : String :=
  "\"" ++ String.join (s.toList.map jsonEscapeChar) ++ "\""

/-- The JSON text `JSON.stringify` produces for an object whose own properties,
in insertion order, are the given keys with string values. -/
def JSON_stringify (fields : List (String × String)) : String :=
  "\x7b" ++ String.intercalate "," (fields.map fun kv => jsonQuote kv.1 ++ ":" ++ jsonQuote kv.2)
    ++ "\x7d"

/-! ## Data model -/

/-- The object literal handed to `new SiweMessage(...)`.  The fields a caller
may set but `connectWallet` might leave out are optional. -/
structure SiweParams where
  domain : String
  address : String
  statement : Option String
  uri : String
  version : String
  chainId : JsNumber
  scheme : Option String
  nonce : Option String
  issuedAt : Option String
  expirationTime : Option String
  notBefore : Option String
  requestId : Option String
  resources : Option (List String)
  deriving DecidableEq, Repr

/-- The arguments of a `fetch` call: the URL and the members of the init
object. -/
structure Request where
  url : String
  method : String
  headers : List (String × String)
  body : Option String
  deriving DecidableEq, Repr

/-- A `fetch` response, reduced to its HTTP status. -/
structure Response where
  status : Nat
  deriving DecidableEq, Repr

/-- The `ok` attribute of a response: the status is in the range 200-299. -/
def Response.ok (r : Response) : Bool := decide (200 ≤ r.status) && decide (r.status ≤ 299)

/-- The three `useState` cells of `App`. -/
structure UIState where
  isAuthenticated : Bool
  userAddress : String
  loading : Bool
  deriving DecidableEq, Repr

/-- The `useState` initial values. -/
def UIState.initial : UIState := ⟨false, "", false⟩

/-- One observable effect of a handler.  A call of a collaborator records what
the collaborator answered. -/
inductive Event where
  | setLoading (b : Bool)
  | setUserAddress (a : String)
  | setIsAuthenticated (b : Bool)
  | alert (text : String)
  | consoleError (label : String) (err : Thrown)
  | newBrowserProvider (result : Outcome Unit)
  | getSigner (result : Outcome Unit)
  | getAddress (result : Outcome String)
  | getNetwork (result : Outcome Int)
  | newSiweMessage (params : SiweParams) (result : Outcome Unit)
  | prepareMessage (result : Outcome String)
  | signMessage (message : String) (result : Outcome String)
  | fetch (request : Request) (result : Outcome Response)
  | navigate (href : String) (result : Outcome Unit)
  deriving DecidableEq, Repr

/-- The collaborators of one handler run. -/
structure Env where
  /-- Whether `typeof window.ethereum !== 'undefined'`. -/
  hasEthereum : Bool
  /-- The value of `window.location.host`. -/
  host : String
  /-- The value of `window.location.origin`. -/
  origin : String
  /-- The call `new BrowserProvider(window.ethereum)`. -/
  newBrowserProvider : Outcome Unit
  /-- The call `provider.getSigner()`. -/
  getSigner : Outcome Unit
  /-- The call `signer.getAddress()`. -/
  getAddress : Outcome String
  /-- The call `provider.getNetwork()`, reduced to the `chainId` BigInt. -/
  getNetwork : Outcome Int
  /-- The constructor of the `siwe` library (it validates its argument). -/
  newSiweMessage : SiweParams → Outcome Unit
  /-- The method `message.prepareMessage()` of the constructed message. -/
  prepareMessage : SiweParams → Outcome String
  /-- The call `signer.signMessage(text)`. -/
  signMessage : String → Outcome String
  /-- The global `fetch`. -/
  fetch : Request → Outcome Response
  /-- The assignment `window.location.href = url`. -/
  navigate : String → Outcome Unit

/-! ## Effects -/

/-- A finished run of JavaScript code: the effects performed, in order, and the
value returned or the value thrown. -/
structure Eff (α : Type) where
  trace : List Event
  result : Except Thrown α

/-- A run that performs nothing and returns `a`. -/
def Eff.pure {α : Type} (a : α) : Eff α := ⟨[], Except.ok a⟩

/-- Sequencing: the second part runs only when the first returned. -/
def Eff.bind {α β : Type} (x : Eff α) (f : α → Eff β) : Eff β :=
  match x.result with
  | Except.error e => ⟨x.trace, Except.error e⟩
  | Except.ok a => ⟨x.trace ++ (f a).trace, (f a).result⟩

instance : Monad Eff where
  pure := Eff.pure
  bind := Eff.bind

/-- The statement `throw e`. -/
def Eff.throw {α : Type} (e : Thrown) : Eff α := ⟨[], Except.error e⟩

/-- The statement `try { body } catch (error) { handler error }`. -/
def Eff.tryCatch {α : Type} (body : Eff α) (handler : Thrown → Eff α) : Eff α :=
  match body.result with
  | Except.ok _ => body
  | Except.error e => ⟨body.trace ++ (handler e).trace, (handler e).result⟩

/-- The statement `try { body } finally { fin }`: `fin` always runs, and the
run ends the way `body` ended unless `fin` itself throws. -/
def Eff.tryFinally {α : Type} (body : Eff α) (fin : Eff Unit) : Eff α :=
  ⟨body.trace ++ fin.trace,
    match fin.result with
    | Except.ok _ => body.result
    | Except.error e => Except.error e⟩

/-- Perform one effect that cannot fail. -/
def emit (e : Event) : Eff Unit := ⟨[e], Except.ok ()⟩

/-- Call a collaborator: record the call with its answer, then return the value
or rethrow. -/
def call {α : Type} (ev : Outcome α → Event) (o : Outcome α) : Eff α :=
  ⟨[ev o], match o with
    | Outcome.ok v => Except.ok v
    | Outcome.throws e => Except.error e⟩

/-- The string form of `error.message` for a thrown value: `none` when reading
the property throws (the value is `null` or `undefined`), the text `undefined`
when the value has no such property. -/
def Thrown.messageText : Thrown → Option String
  | Thrown.nullish => none
  | Thrown.value (some m) _ => some m
  | Thrown.value none _ => some "undefined"

/-- The expression `prefixText + error.message`: reading `message` of `null` or
`undefined` throws a TypeError. -/
def concatErrorMessage (prefixText : String) (error : Thrown) : Eff String :=
  match error.messageText with
  | none => Eff.throw (Thrown.value (some "Cannot read properties of null") none)
  | some text => Eff.pure (prefixText ++ text)

/-! ## The handlers -/

/-- The object literal of `App.jsx` lines 19-26. -/
def siweParams (env : Env) (address : String) (chainId : Int) : SiweParams where
  domain := env.host
  address := address
  statement := some "Sign in to Digi-tionary"
  uri := env.origin
  version := "1"
  chainId := Number_ofBigInt chainId
  scheme := none
  nonce := none
  issuedAt := none
  expirationTime := none
  notBefore := none
  requestId := none
  resources := none

/-- The `fetch` arguments of `App.jsx` lines 31-35. -/
def siweRequest (messageToSign signature : String) : Request where
  url := "/api/auth/siwe"
  method := "POST"
  headers := [("Content-Type", "application/json")]
  body := some (JSON_stringify [("message", messageToSign), ("signature", signature)])

/-- The `try` block of `connectWallet`, `App.jsx` lines 13-45. -/
def connectWalletBody (env : Env) : Eff Unit :=
  if env.hasEthereum then do
    call Event.newBrowserProvider env.newBrowserProvider
    call Event.getSigner env.getSigner
    let address ← call Event.getAddress env.getAddress
    let chainId ← call Event.getNetwork env.getNetwork
    let message := siweParams env address chainId
    call (Event.newSiweMessage message) (env.newSiweMessage message)
    let messageToSign ← call Event.prepareMessage (env.prepareMessage message)
    let signature ← call (Event.signMessage messageToSign) (env.signMessage messageToSign)
    let request := siweRequest messageToSign signature
    let response ← call (Event.fetch request) (env.fetch request)
    if response.ok then do
      emit (Event.setUserAddress address)
      emit (Event.setIsAuthenticated true)
    else
      emit (Event.alert "Authentication failed")
  else
    emit (Event.alert "Please install MetaMask or another Web3 wallet")

/-- The `catch` block of `connectWallet`, `App.jsx` lines 46-48. -/
def connectWalletCatch (error : Thrown) : Eff Unit := do
  emit (Event.consoleError "Error connecting wallet:" error)
  let text ← concatErrorMessage "Failed to connect wallet: " error
  emit (Event.alert text)

/-- The handler `connectWallet`, `App.jsx` lines 10-52. -/
def connectWallet (env : Env) : Eff Unit := do
  emit (Event.setLoading true)
  Eff.tryFinally
    (Eff.tryCatch (connectWalletBody env) connectWalletCatch)
    (emit (Event.setLoading false))

/-- The handler `handleSSOLogin`, `App.jsx` lines 54-62. -/
def handleSSOLogin (env : Env) : Eff Unit := do
  emit (Event.setLoading true)
  Eff.tryCatch
    (call (Event.navigate "/api/auth/sso") (env.navigate "/api/auth/sso"))
    (fun error => do
      emit (Event.consoleError "SSO error:" error)
      emit (Event.setLoading false))

/-- The `fetch` arguments of `App.jsx` line 65. -/
def logoutRequest : Request where
  url := "/api/auth/logout"
  method := "POST"
  headers := []
  body := none

/-- The handler `handleLogout`, `App.jsx` lines 64-68. -/
def handleLogout (env : Env) : Eff Unit := do
  let _ ← call (Event.fetch logoutRequest) (env.fetch logoutRequest)
  emit (Event.setIsAuthenticated false)
  emit (Event.setUserAddress "")

/-! ## State after a run -/

/-- The effect of one event on the React state. -/
def applyEvent (s : UIState) : Event → UIState
  | Event.setLoading b => { s with loading := b }
  | Event.setUserAddress a => { s with userAddress := a }
  | Event.setIsAuthenticated b => { s with isAuthenticated := b }
  | _ => s

/-- The React state after the events of a trace, starting from `s`. -/
def finalState (s : UIState) (trace : List Event) : UIState :=
  trace.foldl applyEvent s

/-! ## Render -/

/-- The handler wired to a button. -/
inductive Handler where
  | connectWallet
  | handleSSOLogin
  | handleLogout
  deriving DecidableEq, Repr

/-- A rendered `button` element: its `onClick`, its `disabled` attribute and
its text. -/
structure Button where
  onClick : Handler
  disabled : Bool
  label : String
  deriving DecidableEq, Repr

/-- What `App` returns, reduced to what depends on the state. -/
inductive View where
  | welcome (connectedAs : String) (logout : Button)
  | signIn (wallet : Button) (sso : Button)
  deriving DecidableEq, Repr

/-- The render function of `App`, `App.jsx` lines 70-153. -/
def render (s : UIState) : View :=
  if s.isAuthenticated then
    View.welcome s.userAddress ⟨Handler.handleLogout, false, "Logout"⟩
  else
    View.signIn
      ⟨Handler.connectWallet, s.loading,
        if s.loading then "Connecting..." else "Sign in with Ethereum"⟩
      ⟨Handler.handleSSOLogin, s.loading,
        if s.loading then "Signing in..." else "Sign in with SSO"⟩

/-! ## Observations on a trace -/

/-- The requests of the `fetch` calls of a trace, in order. -/
def fetchRequests (trace : List Event) : List Request :=
  trace.filterMap fun e => match e with
    | Event.fetch request _ => some request
    | _ => none

/-- The requests of a trace that go to the verification endpoint. -/
def siweRequests (trace : List Event) : List Request :=
  (fetchRequests trace).filter fun r => r.url = "/api/auth/siwe"

/-- Whether `signer.signMessage` returned a signature in the trace. -/
def signatureObtained (trace : List Event) : Bool :=
  trace.any fun e => match e with
    | Event.signMessage _ (Outcome.ok _) => true
    | _ => false

/-- Whether `signer.signMessage` threw in the trace. -/
def signingRejected (trace : List Event) : Bool :=
  trace.any fun e => match e with
    | Event.signMessage _ (Outcome.throws _) => true
    | _ => false

/-- Whether an event is a call into the wallet. -/
def Event.isWalletCall : Event → Bool
  | Event.newBrowserProvider _ => true
  | Event.getSigner _ => true
  | Event.getAddress _ => true
  | Event.getNetwork _ => true
  | Event.signMessage _ _ => true
  | _ => false

/-- Whether an event is a wallet, navigation or network interaction. -/
def Event.isInteraction : Event → Bool
  | Event.fetch _ _ => true
  | Event.navigate _ _ => true
  | e => e.isWalletCall

/-- Whether an event is a call of `setLoading`. -/
def Event.isSetLoading : Event → Bool
  | Event.setLoading _ => true
  | _ => false

/-- Whether every wallet, navigation or network interaction of a trace happens
while the loading flag is `true`; `loading` is the flag before the trace. -/
def guardedByLoading : Bool → List Event → Bool
  | _, [] => true
  | loading, e :: rest =>
      (!e.isInteraction || loading) &&
        guardedByLoading (match e with
          | Event.setLoading b => b
          | _ => loading) rest

/-- The texts shown to the user with `alert`, in order. -/
def notices (trace : List Event) : List String :=
  trace.filterMap fun e => match e with
    | Event.alert text => some text
    | _ => none

/-- The steps at which a sign-in attempt can fail. -/
inductive Step where
  | walletProbe
  | newBrowserProvider
  | getSigner
  | getAddress
  | getNetwork
  | newSiweMessage
  | prepareMessage
  | signMessage
  | fetch
  | verification
  deriving DecidableEq, Repr

/-- The failure an event stands for, if any: a collaborator that threw, with
the thrown value, or a verification response outside 200-299. -/
def Event.failure : Event → Option (Step × Option Thrown)
  | Event.newBrowserProvider (Outcome.throws e) => some (Step.newBrowserProvider, some e)
  | Event.getSigner (Outcome.throws e) => some (Step.getSigner, some e)
  | Event.getAddress (Outcome.throws e) => some (Step.getAddress, some e)
  | Event.getNetwork (Outcome.throws e) => some (Step.getNetwork, some e)
  | Event.newSiweMessage _ (Outcome.throws e) => some (Step.newSiweMessage, some e)
  | Event.prepareMessage (Outcome.throws e) => some (Step.prepareMessage, some e)
  | Event.signMessage _ (Outcome.throws e) => some (Step.signMessage, some e)
  | Event.fetch _ (Outcome.throws e) => some (Step.fetch, some e)
  | Event.fetch _ (Outcome.ok r) => if r.ok then none else some (Step.verification, none)
  | _ => none

/-- The failure of a `connectWallet` trace: the first failing event, or the
wallet probe when the trace has no wallet call at all; `none` for a run that
signed in. -/
def failureOf (trace : List Event) : Option (Step × Option Thrown) :=
  match trace.findSome? Event.failure with
  | some f => some f
  | none => if trace.any Event.isWalletCall then none else some (Step.walletProbe, none)

/-- The step at which a `connectWallet` trace failed. -/
def failedStep (trace : List Event) : Option Step := (failureOf trace).map Prod.fst

/-- The string form of the `message` of the value thrown in a failing trace:
`none` when nothing was thrown, `some none` when reading `message` throws. -/
def thrownMessage (trace : List Event) : Option (Option String) :=
  ((failureOf trace).bind Prod.snd).map Thrown.messageText

/-- The notice `connectWallet` shows for a failure at `step` whose thrown value
has the given message text. -/
def noticeFor : Option Step → Option (Option String) → List String
  | some Step.walletProbe, _ => ["Please install MetaMask or another Web3 wallet"]
  | some Step.verification, _ => ["Authentication failed"]
  | _, some (some text) => ["Failed to connect wallet: " ++ text]
  | _, _ => []

/-! ## Concrete environments -/

/-- The SIWE plaintext of the scenario of the specification, as the `siwe`
library lays it out (the library adds the nonce and the time of issue). -/
def scenarioMessage : String :=
  "app.example wants you to sign in with your Ethereum account:\n" ++
    "0xAbC1230000000000000000000000000000dEaD\n\nSign in to Digi-tionary\n\n" ++
    "URI: https://app.example\nVersion: 1\nChain ID: 1\nNonce: 8f2kQ0aZ1xY3\n" ++
    "Issued At: 2024-01-01T00:00:00.000Z"

/-- The scenario of the specification: account
`0xAbC1230000000000000000000000000000dEaD` on chain 1, page `app.example`, and
a verifier that answers 200. -/
def envAccepted : Env where
  hasEthereum := true
  host := "app.example"
  origin := "https://app.example"
  newBrowserProvider := Outcome.ok ()
  getSigner := Outcome.ok ()
  getAddress := Outcome.ok "0xAbC1230000000000000000000000000000dEaD"
  getNetwork := Outcome.ok 1
  newSiweMessage := fun _ => Outcome.ok ()
  prepareMessage := fun _ => Outcome.ok scenarioMessage
  signMessage := fun _ => Outcome.ok "0x5161"
  fetch := fun _ => Outcome.ok ⟨200⟩
  navigate := fun _ => Outcome.ok ()

/-- The scenario with a verifier that answers 401. -/
def envRefused : Env := { envAccepted with fetch := fun _ => Outcome.ok ⟨401⟩ }

/-- A browser without a wallet. -/
def envNoWallet : Env := { envAccepted with hasEthereum := false }

/-- The user rejects the signature request in the wallet. -/
def envSignRejected : Env :=
  { envAccepted with
    signMessage := fun _ => Outcome.throws (Thrown.value (some "user rejected action") (some 4001)) }

/-- The wallet fails at the signature request with another provider error. -/
def envSignLocked : Env :=
  { envAccepted with
    signMessage := fun _ =>
      Outcome.throws (Thrown.value (some "Internal JSON-RPC error.") (some (-32603))) }

/-- The signature request fails with the same text as in `envSignRejected` but
another provider code. -/
def envSignRejectedOtherCode : Env :=
  { envAccepted with
    signMessage := fun _ => Outcome.throws (Thrown.value (some "user rejected action") (some 4100)) }

/-- The wallet is connected to a chain whose id is `2 ^ 53 + 1`. -/
def envBigChain : Env := { envAccepted with getNetwork := Outcome.ok 9007199254740993 }

/-- The backend cannot be reached: every `fetch` rejects. -/
def envOffline : Env :=
  { envAccepted with fetch := fun _ => Outcome.throws (Thrown.value (some "Failed to fetch") none) }

/-- A signed-in session. -/
def signedIn : UIState := ⟨true, "0xAbC1230000000000000000000000000000dEaD", false⟩

/-! ## Lemmas on runs -/

theorem bind_ok {α β : Type} (x : Eff α) (f : α → Eff β) (a : α) (h : x.result = Except.ok a) :
    (x >>= f) = ⟨x.trace ++ (f a).trace, (f a).result⟩ := by
  show Eff.bind x f = _
  simp [Eff.bind, h]

theorem bind_error {α β : Type} (x : Eff α) (f : α → Eff β) (e : Thrown)
    (h : x.result = Except.error e) : (x >>= f) = ⟨x.trace, Except.error e⟩ := by
  show Eff.bind x f = _
  simp [Eff.bind, h]

theorem call_bind_ok {α β : Type} (ev : Outcome α → Event) (v : α) (f : α → Eff β) :
    (call ev (Outcome.ok v) >>= f) = ⟨ev (Outcome.ok v) :: (f v).trace, (f v).result⟩ := by
  rw [bind_ok _ _ v rfl]; rfl

theorem call_bind_throws {α β : Type} (ev : Outcome α → Event) (e : Thrown) (f : α → Eff β) :
    (call ev (Outcome.throws e : Outcome α) >>= f) =
      ⟨[ev (Outcome.throws e)], Except.error e⟩ := by
  rw [bind_error _ _ e rfl]; rfl

theorem tryCatch_cons {α : Type} (ev : Event) (x : Eff α) (h : Thrown → Eff α) :
    (Eff.tryCatch ⟨ev :: x.trace, x.result⟩ h).trace = ev :: (Eff.tryCatch x h).trace := by
  unfold Eff.tryCatch
  cases hx : x.result <;> simp [hx]

theorem tryCatch_error {α : Type} (t : List Event) (e : Thrown) (h : Thrown → Eff α) :
    (Eff.tryCatch ⟨t, Except.error e⟩ h).trace = t ++ (h e).trace := rfl

/-- The trace of `connectWallet`: the flag is raised, the guarded body runs, the
flag is lowered. -/
theorem connectWallet_trace (env : Env) :
    (connectWallet env).trace = Event.setLoading true ::
      ((Eff.tryCatch (connectWalletBody env) connectWalletCatch).trace ++
        [Event.setLoading false]) := rfl

/-- The events of the catch block for a thrown value. -/
theorem connectWalletCatch_trace (e : Thrown) :
    (connectWalletCatch e).trace =
      Event.consoleError "Error connecting wallet:" e ::
        (match e.messageText with
          | some text => [Event.alert ("Failed to connect wallet: " ++ text)]
          | none => []) := by
  rcases e with _ | ⟨_ | m, c⟩ <;> rfl

/-- The catch block calls no collaborator and no state setter: its events are
the log line and, at most, one notice. -/
theorem mem_connectWalletCatch (e : Thrown) (ev : Event)
    (h : ev ∈ (connectWalletCatch e).trace) :
    ev = Event.consoleError "Error connecting wallet:" e ∨ ∃ text, ev = Event.alert text := by
  rw [connectWalletCatch_trace] at h
  rcases e with _ | ⟨_ | m, c⟩ <;> simp [Thrown.messageText] at h
  · exact Or.inl h
  · exact h.imp id fun h => ⟨_, h⟩
  · exact h.imp id fun h => ⟨_, h⟩

theorem fetch_not_mem_connectWalletCatch (e : Thrown) (req : Request) (o : Outcome Response) :
    Event.fetch req o ∉ (connectWalletCatch e).trace := by
  intro h
  rcases mem_connectWalletCatch e _ h with h | ⟨t, h⟩ <;> cases h

/-- Case principle for `connectWallet`: a property of its trace holds as soon as
it holds of the trace of each of the eleven ways the handler can run. -/
theorem connectWallet_cases (env : Env) (P : List Event → Prop)
    (absent : env.hasEthereum = false →
      P [Event.setLoading true,
        Event.alert "Please install MetaMask or another Web3 wallet",
        Event.setLoading false])
    (providerFails : ∀ e, env.hasEthereum = true → env.newBrowserProvider = Outcome.throws e →
      P (Event.setLoading true :: Event.newBrowserProvider (Outcome.throws e) ::
        ((connectWalletCatch e).trace ++ [Event.setLoading false])))
    (signerFails : ∀ e, env.hasEthereum = true → env.getSigner = Outcome.throws e →
      P (Event.setLoading true :: Event.newBrowserProvider (Outcome.ok ()) ::
        Event.getSigner (Outcome.throws e) ::
        ((connectWalletCatch e).trace ++ [Event.setLoading false])))
    (addressFails : ∀ e, env.hasEthereum = true → env.getAddress = Outcome.throws e →
      P (Event.setLoading true :: Event.newBrowserProvider (Outcome.ok ()) ::
        Event.getSigner (Outcome.ok ()) :: Event.getAddress (Outcome.throws e) ::
        ((connectWalletCatch e).trace ++ [Event.setLoading false])))
    (networkFails : ∀ addr e, env.hasEthereum = true → env.getAddress = Outcome.ok addr →
      env.getNetwork = Outcome.throws e →
      P (Event.setLoading true :: Event.newBrowserProvider (Outcome.ok ()) ::
        Event.getSigner (Outcome.ok ()) :: Event.getAddress (Outcome.ok addr) ::
        Event.getNetwork (Outcome.throws e) ::
        ((connectWalletCatch e).trace ++ [Event.setLoading false])))
    (messageFails : ∀ addr cid e, env.hasEthereum = true → env.getAddress = Outcome.ok addr →
      env.getNetwork = Outcome.ok cid →
      env.newSiweMessage (siweParams env addr cid) = Outcome.throws e →
      P (Event.setLoading true :: Event.newBrowserProvider (Outcome.ok ()) ::
        Event.getSigner (Outcome.ok ()) :: Event.getAddress (Outcome.ok addr) ::
        Event.getNetwork (Outcome.ok cid) ::
        Event.newSiweMessage (siweParams env addr cid) (Outcome.throws e) ::
        ((connectWalletCatch e).trace ++ [Event.setLoading false])))
    (prepareFails : ∀ addr cid e, env.hasEthereum = true → env.getAddress = Outcome.ok addr →
      env.getNetwork = Outcome.ok cid →
      env.prepareMessage (siweParams env addr cid) = Outcome.throws e →
      P (Event.setLoading true :: Event.newBrowserProvider (Outcome.ok ()) ::
        Event.getSigner (Outcome.ok ()) :: Event.getAddress (Outcome.ok addr) ::
        Event.getNetwork (Outcome.ok cid) ::
        Event.newSiweMessage (siweParams env addr cid) (Outcome.ok ()) ::
        Event.prepareMessage (Outcome.throws e) ::
        ((connectWalletCatch e).trace ++ [Event.setLoading false])))
    (signFails : ∀ addr cid msg e, env.hasEthereum = true → env.getAddress = Outcome.ok addr →
      env.getNetwork = Outcome.ok cid →
      env.prepareMessage (siweParams env addr cid) = Outcome.ok msg →
      env.signMessage msg = Outcome.throws e →
      P (Event.setLoading true :: Event.newBrowserProvider (Outcome.ok ()) ::
        Event.getSigner (Outcome.ok ()) :: Event.getAddress (Outcome.ok addr) ::
        Event.getNetwork (Outcome.ok cid) ::
        Event.newSiweMessage (siweParams env addr cid) (Outcome.ok ()) ::
        Event.prepareMessage (Outcome.ok msg) :: Event.signMessage msg (Outcome.throws e) ::
        ((connectWalletCatch e).trace ++ [Event.setLoading false])))
    (fetchFails : ∀ addr cid msg sig e, env.hasEthereum = true →
      env.getAddress = Outcome.ok addr → env.getNetwork = Outcome.ok cid →
      env.prepareMessage (siweParams env addr cid) = Outcome.ok msg →
      env.signMessage msg = Outcome.ok sig →
      env.fetch (siweRequest msg sig) = Outcome.throws e →
      P (Event.setLoading true :: Event.newBrowserProvider (Outcome.ok ()) ::
        Event.getSigner (Outcome.ok ()) :: Event.getAddress (Outcome.ok addr) ::
        Event.getNetwork (Outcome.ok cid) ::
        Event.newSiweMessage (siweParams env addr cid) (Outcome.ok ()) ::
        Event.prepareMessage (Outcome.ok msg) :: Event.signMessage msg (Outcome.ok sig) ::
        Event.fetch (siweRequest msg sig) (Outcome.throws e) ::
        ((connectWalletCatch e).trace ++ [Event.setLoading false])))
    (accepted : ∀ addr cid msg sig r, env.hasEthereum = true →
      env.getAddress = Outcome.ok addr → env.getNetwork = Outcome.ok cid →
      env.prepareMessage (siweParams env addr cid) = Outcome.ok msg →
      env.signMessage msg = Outcome.ok sig →
      env.fetch (siweRequest msg sig) = Outcome.ok r → r.ok = true →
      P [Event.setLoading true, Event.newBrowserProvider (Outcome.ok ()),
        Event.getSigner (Outcome.ok ()), Event.getAddress (Outcome.ok addr),
        Event.getNetwork (Outcome.ok cid),
        Event.newSiweMessage (siweParams env addr cid) (Outcome.ok ()),
        Event.prepareMessage (Outcome.ok msg), Event.signMessage msg (Outcome.ok sig),
        Event.fetch (siweRequest msg sig) (Outcome.ok r),
        Event.setUserAddress addr, Event.setIsAuthenticated true, Event.setLoading false])
    (refused : ∀ addr cid msg sig r, env.hasEthereum = true →
      env.getAddress = Outcome.ok addr → env.getNetwork = Outcome.ok cid →
      env.prepareMessage (siweParams env addr cid) = Outcome.ok msg →
      env.signMessage msg = Outcome.ok sig →
      env.fetch (siweRequest msg sig) = Outcome.ok r → r.ok = false →
      P [Event.setLoading true, Event.newBrowserProvider (Outcome.ok ()),
        Event.getSigner (Outcome.ok ()), Event.getAddress (Outcome.ok addr),
        Event.getNetwork (Outcome.ok cid),
        Event.newSiweMessage (siweParams env addr cid) (Outcome.ok ()),
        Event.prepareMessage (Outcome.ok msg), Event.signMessage msg (Outcome.ok sig),
        Event.fetch (siweRequest msg sig) (Outcome.ok r),
        Event.alert "Authentication failed", Event.setLoading false]) :
    P (connectWallet env).trace := by
  rw [connectWallet_trace]
  cases h0 : env.hasEthereum with
  | false =>
    have := absent h0
    simpa [connectWalletBody, h0, Eff.tryCatch, emit] using this
  | true =>
  cases h1 : env.newBrowserProvider with
  | throws e =>
    have := providerFails e h0 h1
    simpa [connectWalletBody, h0, h1, call_bind_throws, tryCatch_error] using this
  | ok u1 =>
  cases h2 : env.getSigner with
  | throws e =>
    have := signerFails e h0 h2
    simpa [connectWalletBody, h0, h1, h2, call_bind_ok, call_bind_throws, tryCatch_cons,
      tryCatch_error] using this
  | ok u2 =>
  cases h3 : env.getAddress with
  | throws e =>
    have := addressFails e h0 h3
    simpa [connectWalletBody, h0, h1, h2, h3, call_bind_ok, call_bind_throws, tryCatch_cons,
      tryCatch_error] using this
  | ok addr =>
  cases h4 : env.getNetwork with
  | throws e =>
    have := networkFails addr e h0 h3 h4
    simpa [connectWalletBody, h0, h1, h2, h3, h4, call_bind_ok, call_bind_throws, tryCatch_cons,
      tryCatch_error] using this
  | ok cid =>
  cases h5 : env.newSiweMessage (siweParams env addr cid) with
  | throws e =>
    have := messageFails addr cid e h0 h3 h4 h5
    simpa [connectWalletBody, h0, h1, h2, h3, h4, h5, call_bind_ok, call_bind_throws,
      tryCatch_cons, tryCatch_error] using this
  | ok u5 =>
  cases h6 : env.prepareMessage (siweParams env addr cid) with
  | throws e =>
    have := prepareFails addr cid e h0 h3 h4 h6
    simpa [connectWalletBody, h0, h1, h2, h3, h4, h5, h6, call_bind_ok, call_bind_throws,
      tryCatch_cons, tryCatch_error] using this
  | ok msg =>
  cases h7 : env.signMessage msg with
  | throws e =>
    have := signFails addr cid msg e h0 h3 h4 h6 h7
    simpa [connectWalletBody, h0, h1, h2, h3, h4, h5, h6, h7, call_bind_ok, call_bind_throws,
      tryCatch_cons, tryCatch_error] using this
  | ok sig =>
  cases h8 : env.fetch (siweRequest msg sig) with
  | throws e =>
    have := fetchFails addr cid msg sig e h0 h3 h4 h6 h7 h8
    simpa [connectWalletBody, h0, h1, h2, h3, h4, h5, h6, h7, h8, call_bind_ok,
      call_bind_throws, tryCatch_cons, tryCatch_error] using this
  | ok r =>
  cases h9 : r.ok with
  | true =>
    have := accepted addr cid msg sig r h0 h3 h4 h6 h7 h8 h9
    simpa [connectWalletBody, h0, h1, h2, h3, h4, h5, h6, h7, h8, h9, call_bind_ok,
      tryCatch_cons, Eff.tryCatch, emit, bind_ok] using this
  | false =>
    have := refused addr cid msg sig r h0 h3 h4 h6 h7 h8 h9
    simpa [connectWalletBody, h0, h1, h2, h3, h4, h5, h6, h7, h8, h9, call_bind_ok,
      tryCatch_cons, Eff.tryCatch, emit] using this

/-! ## Claims -/

/-- Whatever the backend answers, when the logout request gets a response the
handler clears the session. -/
theorem handleLogout_clears_on_response (env : Env) (s : UIState) (r : Response)
    (h : env.fetch logoutRequest = Outcome.ok r) :
    finalState s (handleLogout env).trace = ⟨false, "", s.loading⟩ := by
  simp [handleLogout, h, call_bind_ok, emit, bind_ok, finalState, applyEvent]

/-- C1, at the failing input: starting signed in, with a backend that cannot be
reached (the `fetch` of `/api/auth/logout` rejects), `handleLogout` issues the
request, ends by rethrowing, calls neither `setIsAuthenticated` nor
`setUserAddress`, and the session is still the signed-in one. -/
theorem handleLogout_fetch_rejects_keeps_session :
    (handleLogout envOffline).trace =
        [Event.fetch logoutRequest (Outcome.throws (Thrown.value (some "Failed to fetch") none))] ∧
      (handleLogout envOffline).result = Except.error (Thrown.value (some "Failed to fetch") none) ∧
      finalState signedIn (handleLogout envOffline).trace = signedIn ∧
      (finalState signedIn (handleLogout envOffline).trace).isAuthenticated = true :=
  ⟨by decide, rfl, by decide, by decide⟩

/-- C2: for every environment and every starting state, the loading flag is
`false` after a run of `connectWallet`. -/
theorem connectWallet_clears_loading (env : Env) (s : UIState) :
    (finalState s (connectWallet env).trace).loading = false := by
  rw [connectWallet_trace]
  simp [finalState, List.foldl_append, applyEvent]

/-- C3: a run of `connectWallet` issues at most one `fetch`, every `fetch` goes
to `/api/auth/siwe`, one is issued exactly when `signer.signMessage` returned a
signature, and a run in which signing threw issues none. -/
theorem connectWallet_request_iff_signed (env : Env) :
    (fetchRequests (connectWallet env).trace).length ≤ 1 ∧
      siweRequests (connectWallet env).trace = fetchRequests (connectWallet env).trace ∧
      ((siweRequests (connectWallet env).trace).length = 1 ↔
        signatureObtained (connectWallet env).trace = true) ∧
      (signingRejected (connectWallet env).trace = true →
        fetchRequests (connectWallet env).trace = []) := by
  refine connectWallet_cases env
    (fun tr => (fetchRequests tr).length ≤ 1 ∧ siweRequests tr = fetchRequests tr ∧
      ((siweRequests tr).length = 1 ↔ signatureObtained tr = true) ∧
      (signingRejected tr = true → fetchRequests tr = [])) ?_ ?_ ?_ ?_ ?_ ?_ ?_ ?_ ?_ ?_ ?_
  all_goals intros
  all_goals simp [fetchRequests, siweRequests, signatureObtained, signingRejected,
    connectWalletCatch_trace, siweRequest, List.filterMap_cons, List.filterMap_append]
  all_goals split <;> simp

/-- C3, witness: the run in which the user rejects the signature request. -/
theorem connectWallet_request_iff_signed_witness :
    signingRejected (connectWallet envSignRejected).trace = true ∧
      fetchRequests (connectWallet envSignRejected).trace = [] :=
  ⟨by decide, (connectWallet_request_iff_signed envSignRejected).2.2.2 (by decide)⟩

/-- C4: without a wallet (`window.ethereum` undefined) `connectWallet` only
raises the flag, shows the install notice and lowers the flag: no wallet call,
no network request, and `isAuthenticated` and `userAddress` are unchanged. -/
theorem connectWallet_wallet_absent (env : Env) (s : UIState) (h : env.hasEthereum = false) :
    (connectWallet env).trace =
        [Event.setLoading true, Event.alert "Please install MetaMask or another Web3 wallet",
          Event.setLoading false] ∧
      (connectWallet env).trace.any Event.isWalletCall = false ∧
      fetchRequests (connectWallet env).trace = [] ∧
      failedStep (connectWallet env).trace = some Step.walletProbe ∧
      (finalState s (connectWallet env).trace).isAuthenticated = s.isAuthenticated ∧
      (finalState s (connectWallet env).trace).userAddress = s.userAddress := by
  have ht : (connectWallet env).trace =
      [Event.setLoading true, Event.alert "Please install MetaMask or another Web3 wallet",
        Event.setLoading false] := by
    rw [connectWallet_trace]
    simp [connectWalletBody, h, Eff.tryCatch, emit]
  rw [ht]
  exact ⟨rfl, rfl, rfl, rfl, rfl, rfl⟩

/-- C4, witness: a signed-out page in a browser without a wallet. -/
theorem connectWallet_wallet_absent_witness :
    envNoWallet.hasEthereum = false ∧
      notices (connectWallet envNoWallet).trace =
        ["Please install MetaMask or another Web3 wallet"] ∧
      fetchRequests (connectWallet envNoWallet).trace = [] ∧
      finalState UIState.initial (connectWallet envNoWallet).trace = UIState.initial :=
  ⟨rfl, by rw [(connectWallet_wallet_absent envNoWallet UIState.initial rfl).1]; rfl,
    (connectWallet_wallet_absent envNoWallet UIState.initial rfl).2.2.1, by decide⟩

/-- C5: when the verification endpoint answers with a status outside 200-299, a
run of `connectWallet` started signed out ends signed out, with `userAddress`
unchanged and the loading flag `false`, and the run made exactly one request. -/
theorem connectWallet_verification_refused (env : Env) (s : UIState) (req : Request)
    (r : Response) (hs : s.isAuthenticated = false)
    (hmem : Event.fetch req (Outcome.ok r) ∈ (connectWallet env).trace) (hr : r.ok = false) :
    finalState s (connectWallet env).trace = ⟨false, s.userAddress, false⟩ ∧
      (fetchRequests (connectWallet env).trace).length = 1 ∧
      notices (connectWallet env).trace = ["Authentication failed"] := by
  revert hmem
  apply connectWallet_cases env
    (fun tr => Event.fetch req (Outcome.ok r) ∈ tr →
      finalState s tr = ⟨false, s.userAddress, false⟩ ∧ (fetchRequests tr).length = 1 ∧
        notices tr = ["Authentication failed"])
  case refused =>
    intros
    simp [finalState, applyEvent, fetchRequests, notices, hs]
  case accepted =>
    intro addr cid msg sig r2 _ _ _ _ _ _ hok hm
    simp at hm
    rw [hm.2] at hr
    simp [hr] at hok
  all_goals intros
  all_goals simp_all [fetch_not_mem_connectWalletCatch]


set_option maxRecDepth 100000 in
/-- C5, witness: the scenario of the specification with a verifier that answers
401, started from the initial (signed-out) state. -/
theorem connectWallet_verification_refused_witness :
    UIState.initial.isAuthenticated = false ∧
      (⟨401⟩ : Response).ok = false ∧
      finalState UIState.initial (connectWallet envRefused).trace = ⟨false, "", false⟩ ∧
      (fetchRequests (connectWallet envRefused).trace).length = 1 :=
  ⟨rfl, by decide,
    (connectWallet_verification_refused envRefused UIState.initial
      (siweRequest scenarioMessage "0x5161")
      ⟨401⟩ rfl (by decide) (by decide)).1,
    (connectWallet_verification_refused envRefused UIState.initial
      (siweRequest scenarioMessage "0x5161")
      ⟨401⟩ rfl (by decide) (by decide)).2.1⟩

/-- C6: in a run of `connectWallet` in which `signer.getAddress` returned
`addr`, a signature was obtained and the verification endpoint answered with a
status in 200-299, the run ends with `isAuthenticated = true` and
`userAddress = addr`, and `addr` is the address of the message that was built
and signed. -/
theorem connectWallet_verification_accepted (env : Env) (s : UIState) (addr : String)
    (req : Request) (r : Response)
    (haddr : Event.getAddress (Outcome.ok addr) ∈ (connectWallet env).trace)
    (hsig : signatureObtained (connectWallet env).trace = true)
    (hmem : Event.fetch req (Outcome.ok r) ∈ (connectWallet env).trace) (hr : r.ok = true) :
    finalState s (connectWallet env).trace = ⟨true, addr, false⟩ ∧
      (∀ p res, Event.newSiweMessage p res ∈ (connectWallet env).trace → p.address = addr) ∧
      notices (connectWallet env).trace = [] := by
  revert haddr hsig hmem
  apply connectWallet_cases env
    (fun tr => Event.getAddress (Outcome.ok addr) ∈ tr → signatureObtained tr = true →
      Event.fetch req (Outcome.ok r) ∈ tr →
      finalState s tr = ⟨true, addr, false⟩ ∧
        (∀ p res, Event.newSiweMessage p res ∈ tr → p.address = addr) ∧ notices tr = [])
  case accepted =>
    intro addr2 cid msg sig r2 _ _ _ _ _ _ _ ha _ _
    simp at ha
    subst ha
    simp [finalState, applyEvent, notices, siweParams]
  case refused =>
    intro addr2 cid msg sig r2 _ _ _ _ _ _ hok _ _ hm
    simp at hm
    rw [hm.2] at hr
    simp [hr] at hok
  all_goals intros
  all_goals simp_all [fetch_not_mem_connectWalletCatch]

set_option maxRecDepth 100000 in
/-- C6, witness: the scenario of the specification. -/
theorem connectWallet_verification_accepted_witness :
    (⟨200⟩ : Response).ok = true ∧
      finalState UIState.initial (connectWallet envAccepted).trace =
        ⟨true, "0xAbC1230000000000000000000000000000dEaD", false⟩ :=
  ⟨by decide,
    (connectWallet_verification_accepted envAccepted UIState.initial
      "0xAbC1230000000000000000000000000000dEaD"
      (siweRequest scenarioMessage "0x5161")
      ⟨200⟩ (by decide) (by decide) (by decide) (by decide)).1⟩

/-- C7: every request a run of `connectWallet` issues is a POST to
`/api/auth/siwe` whose body is the JSON text of an object with exactly the two
fields `message` and `signature`, in this order, where `message` is the string
`prepareMessage` returned and `signMessage` was called with, and `signature` is
what that call of `signMessage` returned. -/
theorem connectWallet_request_body (env : Env) (req : Request) (res : Outcome Response)
    (hmem : Event.fetch req res ∈ (connectWallet env).trace) :
    ∃ msg sig, Event.prepareMessage (Outcome.ok msg) ∈ (connectWallet env).trace ∧
      Event.signMessage msg (Outcome.ok sig) ∈ (connectWallet env).trace ∧
      env.signMessage msg = Outcome.ok sig ∧
      req.url = "/api/auth/siwe" ∧ req.method = "POST" ∧
      req.headers = [("Content-Type", "application/json")] ∧
      req.body = some (JSON_stringify [("message", msg), ("signature", sig)]) := by
  revert hmem
  apply connectWallet_cases env
    (fun tr => Event.fetch req res ∈ tr →
      ∃ msg sig, Event.prepareMessage (Outcome.ok msg) ∈ tr ∧
        Event.signMessage msg (Outcome.ok sig) ∈ tr ∧ env.signMessage msg = Outcome.ok sig ∧
        req.url = "/api/auth/siwe" ∧ req.method = "POST" ∧
        req.headers = [("Content-Type", "application/json")] ∧
        req.body = some (JSON_stringify [("message", msg), ("signature", sig)]))
  case fetchFails =>
    intro addr cid msg sig e _ _ _ _ hsign _ hm
    simp [fetch_not_mem_connectWalletCatch] at hm
    refine ⟨msg, sig, by simp, by simp, hsign, ?_⟩
    rw [hm.1]
    exact ⟨rfl, rfl, rfl, rfl⟩
  case accepted =>
    intro addr cid msg sig r _ _ _ _ hsign _ _ hm
    simp at hm
    refine ⟨msg, sig, by simp, by simp, hsign, ?_⟩
    rw [hm.1]
    exact ⟨rfl, rfl, rfl, rfl⟩
  case refused =>
    intro addr cid msg sig r _ _ _ _ hsign _ _ hm
    simp at hm
    refine ⟨msg, sig, by simp, by simp, hsign, ?_⟩
    rw [hm.1]
    exact ⟨rfl, rfl, rfl, rfl⟩
  all_goals intros
  all_goals simp_all [fetch_not_mem_connectWalletCatch]

set_option maxRecDepth 100000 in
/-- C7, witness: the request of the scenario of the specification. -/
theorem connectWallet_request_body_witness :
    fetchRequests (connectWallet envAccepted).trace ≠ [] ∧
      ∃ msg sig, Event.prepareMessage (Outcome.ok msg) ∈ (connectWallet envAccepted).trace ∧
        Event.signMessage msg (Outcome.ok sig) ∈ (connectWallet envAccepted).trace ∧
        envAccepted.signMessage msg = Outcome.ok sig ∧
        (siweRequest scenarioMessage "0x5161").url = "/api/auth/siwe" ∧
        (siweRequest scenarioMessage "0x5161").method = "POST" ∧
        (siweRequest scenarioMessage "0x5161").headers = [("Content-Type", "application/json")] ∧
        (siweRequest scenarioMessage "0x5161").body = some (JSON_stringify [("message", msg), ("signature", sig)]) :=
  ⟨by decide,
    connectWallet_request_body envAccepted _ (Outcome.ok ⟨200⟩) (by decide)⟩


/-- The conversion `Number(b)` is exact on BigInts of magnitude at most
`2 ^ 53`. -/
theorem Number_ofBigInt_exact (b : Int) (h : b.natAbs ≤ 2 ^ 53) :
    Number_ofBigInt b = JsNumber.finite b := by
  have hr : roundToDouble b.natAbs = some b.natAbs := by
    rcases Nat.lt_or_eq_of_le h with hlt | heq
    · unfold roundToDouble
      exact if_pos hlt
    · rw [heq]; decide
  unfold Number_ofBigInt
  rw [hr]
  simp only [JsNumber.finite.injEq]
  split <;> omega

/-- The notices of a run are determined by the step that failed and the message
text of the thrown value. -/
theorem notices_eq_noticeFor (env : Env) :
    notices (connectWallet env).trace =
      noticeFor (failedStep (connectWallet env).trace) (thrownMessage (connectWallet env).trace) := by
  apply connectWallet_cases env (fun tr => notices tr = noticeFor (failedStep tr) (thrownMessage tr))
  case absent => intros; rfl
  case accepted =>
    intro addr cid msg sig r _ _ _ _ _ _ hok
    simp [notices, failedStep, failureOf, thrownMessage, Event.failure, hok, Event.isWalletCall,
      noticeFor]
  case refused =>
    intro addr cid msg sig r _ _ _ _ _ _ hok
    simp [notices, failedStep, failureOf, thrownMessage, Event.failure, hok, noticeFor]
  case providerFails => intro e; rcases e with _ | ⟨_ | m, c⟩ <;> intros <;> rfl
  case signerFails => intro e; rcases e with _ | ⟨_ | m, c⟩ <;> intros <;> rfl
  case addressFails => intro e; rcases e with _ | ⟨_ | m, c⟩ <;> intros <;> rfl
  case networkFails => intro addr e; rcases e with _ | ⟨_ | m, c⟩ <;> intros <;> rfl
  case messageFails => intro addr cid e; rcases e with _ | ⟨_ | m, c⟩ <;> intros <;> rfl
  case prepareFails => intro addr cid e; rcases e with _ | ⟨_ | m, c⟩ <;> intros <;> rfl
  case signFails => intro addr cid msg e; rcases e with _ | ⟨_ | m, c⟩ <;> intros <;> rfl
  case fetchFails => intro addr cid msg sig e; rcases e with _ | ⟨_ | m, c⟩ <;> intros <;> rfl

set_option maxRecDepth 100000 in
/-- C8, counterexample: two runs of `connectWallet` that both fail at
`signer.signMessage`, with errors of different internal detail, show different
notices, each one carrying the error text of its run verbatim. -/
theorem connectWallet_notice_exposes_error_text :
    failedStep (connectWallet envSignRejected).trace = some Step.signMessage ∧
      failedStep (connectWallet envSignLocked).trace = some Step.signMessage ∧
      notices (connectWallet envSignRejected).trace =
        ["Failed to connect wallet: user rejected action"] ∧
      notices (connectWallet envSignLocked).trace =
        ["Failed to connect wallet: Internal JSON-RPC error."] ∧
      notices (connectWallet envSignRejected).trace ≠
        notices (connectWallet envSignLocked).trace := by
  decide

/-- C8, amended: two runs of `connectWallet` that fail at the same step show the
same notices whenever the values thrown in them have the same `message` text;
no other detail of the error (such as a provider code) reaches the notice,
which is fixed by the failing step and that text. -/
theorem connectWallet_notice_depends_on_message_text (envA envB : Env)
    (hstep : failedStep (connectWallet envA).trace = failedStep (connectWallet envB).trace)
    (hmsg : thrownMessage (connectWallet envA).trace = thrownMessage (connectWallet envB).trace) :
    notices (connectWallet envA).trace = notices (connectWallet envB).trace ∧
      notices (connectWallet envA).trace =
        noticeFor (failedStep (connectWallet envA).trace)
          (thrownMessage (connectWallet envA).trace) := by
  refine ⟨?_, notices_eq_noticeFor envA⟩
  rw [notices_eq_noticeFor envA, notices_eq_noticeFor envB, hstep, hmsg]

set_option maxRecDepth 100000 in
/-- C8, witness: the signature request fails twice with the same text and
different provider codes. -/
theorem connectWallet_notice_depends_on_message_text_witness :
    envSignRejected.signMessage scenarioMessage ≠
        envSignRejectedOtherCode.signMessage scenarioMessage ∧
      notices (connectWallet envSignRejected).trace =
        notices (connectWallet envSignRejectedOtherCode).trace :=
  ⟨by decide,
    (connectWallet_notice_depends_on_message_text envSignRejected envSignRejectedOtherCode
      (by decide) (by decide)).1⟩

set_option maxRecDepth 100000 in
/-- C9, counterexample: with the wallet on chain `2 ^ 53 + 1` the message that
`connectWallet` builds has `chainId = 2 ^ 53`, not the resolved chain id. -/
theorem connectWallet_chainId_rounded :
    envBigChain.getNetwork = Outcome.ok 9007199254740993 ∧
      Event.newSiweMessage
          (siweParams envBigChain "0xAbC1230000000000000000000000000000dEaD" 9007199254740993)
          (Outcome.ok ()) ∈ (connectWallet envBigChain).trace ∧
      (siweParams envBigChain "0xAbC1230000000000000000000000000000dEaD"
          9007199254740993).chainId = JsNumber.finite 9007199254740992 ∧
      (siweParams envBigChain "0xAbC1230000000000000000000000000000dEaD"
          9007199254740993).chainId ≠ JsNumber.finite 9007199254740993 := by
  decide

/-- C9, amended: the argument of every `new SiweMessage(...)` of a run of
`connectWallet` has `domain` the host of the page, `address` the account
`signer.getAddress` returned, `statement` the text `Sign in to Digi-tionary`,
`uri` the origin of the page, `version` the text `1`, `chainId` the value
`Number(chainId)` of the chain id `provider.getNetwork` returned, and no other
field; `Number(chainId)` is the chain id itself when its magnitude is at most
`2 ^ 53`. -/
theorem connectWallet_siwe_fields (env : Env) (p : SiweParams) (res : Outcome Unit)
    (hmem : Event.newSiweMessage p res ∈ (connectWallet env).trace) :
    ∃ addr cid, Event.getAddress (Outcome.ok addr) ∈ (connectWallet env).trace ∧
      Event.getNetwork (Outcome.ok cid) ∈ (connectWallet env).trace ∧
      p = { domain := env.host, address := addr, statement := some "Sign in to Digi-tionary",
            uri := env.origin, version := "1", chainId := Number_ofBigInt cid,
            scheme := none, nonce := none, issuedAt := none, expirationTime := none,
            notBefore := none, requestId := none, resources := none } ∧
      (cid.natAbs ≤ 2 ^ 53 → p.chainId = JsNumber.finite cid) := by
  have key : ∀ (addr : String) (cid : Int), p = siweParams env addr cid →
      p = { domain := env.host, address := addr, statement := some "Sign in to Digi-tionary",
            uri := env.origin, version := "1", chainId := Number_ofBigInt cid,
            scheme := none, nonce := none, issuedAt := none, expirationTime := none,
            notBefore := none, requestId := none, resources := none } ∧
      (cid.natAbs ≤ 2 ^ 53 → p.chainId = JsNumber.finite cid) := by
    intro addr cid hp
    subst hp
    exact ⟨rfl, fun h => Number_ofBigInt_exact cid h⟩
  revert hmem
  apply connectWallet_cases env
    (fun tr => Event.newSiweMessage p res ∈ tr →
      ∃ addr cid, Event.getAddress (Outcome.ok addr) ∈ tr ∧
        Event.getNetwork (Outcome.ok cid) ∈ tr ∧
        p = { domain := env.host, address := addr, statement := some "Sign in to Digi-tionary",
              uri := env.origin, version := "1", chainId := Number_ofBigInt cid,
              scheme := none, nonce := none, issuedAt := none, expirationTime := none,
              notBefore := none, requestId := none, resources := none } ∧
        (cid.natAbs ≤ 2 ^ 53 → p.chainId = JsNumber.finite cid))
  case absent => intro _ h; simp at h
  case providerFails =>
    intro e _ _ h
    rcases e with _ | ⟨_ | m, c⟩ <;> simp [connectWalletCatch_trace, Thrown.messageText] at h
  case signerFails =>
    intro e _ _ h
    rcases e with _ | ⟨_ | m, c⟩ <;> simp [connectWalletCatch_trace, Thrown.messageText] at h
  case addressFails =>
    intro e _ _ h
    rcases e with _ | ⟨_ | m, c⟩ <;> simp [connectWalletCatch_trace, Thrown.messageText] at h
  case networkFails =>
    intro addr e _ _ _ h
    rcases e with _ | ⟨_ | m, c⟩ <;> simp [connectWalletCatch_trace, Thrown.messageText] at h
  case messageFails =>
    intro addr cid e _ _ _ _ h
    have hp : p = siweParams env addr cid := by
      rcases e with _ | ⟨_ | m, c⟩ <;>
        simp [connectWalletCatch_trace, Thrown.messageText] at h <;> exact h.1
    exact ⟨addr, cid, by simp, by simp, key addr cid hp⟩
  case prepareFails =>
    intro addr cid e _ _ _ _ h
    have hp : p = siweParams env addr cid := by
      rcases e with _ | ⟨_ | m, c⟩ <;>
        simp [connectWalletCatch_trace, Thrown.messageText] at h <;> exact h.1
    exact ⟨addr, cid, by simp, by simp, key addr cid hp⟩
  case signFails =>
    intro addr cid msg e _ _ _ _ _ h
    have hp : p = siweParams env addr cid := by
      rcases e with _ | ⟨_ | m, c⟩ <;>
        simp [connectWalletCatch_trace, Thrown.messageText] at h <;> exact h.1
    exact ⟨addr, cid, by simp, by simp, key addr cid hp⟩
  case fetchFails =>
    intro addr cid msg sig e _ _ _ _ _ _ h
    have hp : p = siweParams env addr cid := by
      rcases e with _ | ⟨_ | m, c⟩ <;>
        simp [connectWalletCatch_trace, Thrown.messageText] at h <;> exact h.1
    exact ⟨addr, cid, by simp, by simp, key addr cid hp⟩
  case accepted =>
    intro addr cid msg sig r _ _ _ _ _ _ _ h
    simp at h
    exact ⟨addr, cid, by simp, by simp, key addr cid h.1⟩
  case refused =>
    intro addr cid msg sig r _ _ _ _ _ _ _ h
    simp at h
    exact ⟨addr, cid, by simp, by simp, key addr cid h.1⟩


set_option maxRecDepth 100000 in
/-- C9, witness: the message of the scenario of the specification, on chain 1. -/
theorem connectWallet_siwe_fields_witness :
    ∃ addr cid,
      Event.getAddress (Outcome.ok addr) ∈ (connectWallet envAccepted).trace ∧
      Event.getNetwork (Outcome.ok cid) ∈ (connectWallet envAccepted).trace ∧
      siweParams envAccepted "0xAbC1230000000000000000000000000000dEaD" 1 =
        { domain := envAccepted.host, address := addr,
          statement := some "Sign in to Digi-tionary", uri := envAccepted.origin,
          version := "1", chainId := Number_ofBigInt cid, scheme := none, nonce := none,
          issuedAt := none, expirationTime := none, notBefore := none, requestId := none,
          resources := none } ∧
      (cid.natAbs ≤ 2 ^ 53 →
        (siweParams envAccepted "0xAbC1230000000000000000000000000000dEaD" 1).chainId =
          JsNumber.finite cid) :=
  connectWallet_siwe_fields envAccepted
    (siweParams envAccepted "0xAbC1230000000000000000000000000000dEaD" 1) (Outcome.ok ())
    (by decide)

/-- C10: `connectWallet` and `handleSSOLogin` call `setLoading(true)` first;
`connectWallet` calls `setLoading` once more, with `false`, as its last effect;
`handleSSOLogin` calls it again, with `false` and as its last effect, only when
the navigation threw; in both, every wallet, navigation or network interaction
happens while the flag is `true`; and the signed-out screen renders both
sign-in buttons with `disabled` equal to the flag. -/
theorem loading_guards_sign_in (env : Env) :
    ((connectWallet env).trace.head? = some (Event.setLoading true) ∧
        (connectWallet env).trace.getLast? = some (Event.setLoading false) ∧
        (connectWallet env).trace.filter Event.isSetLoading =
          [Event.setLoading true, Event.setLoading false] ∧
        ∀ l, guardedByLoading l (connectWallet env).trace = true) ∧
      ((handleSSOLogin env).trace =
          Event.setLoading true ::
            Event.navigate "/api/auth/sso" (env.navigate "/api/auth/sso") ::
            (match env.navigate "/api/auth/sso" with
              | Outcome.ok _ => []
              | Outcome.throws e =>
                  [Event.consoleError "SSO error:" e, Event.setLoading false]) ∧
        ∀ l, guardedByLoading l (handleSSOLogin env).trace = true) ∧
      ∀ (addr : String) (l : Bool),
        render ⟨false, addr, l⟩ =
          View.signIn
            ⟨Handler.connectWallet, l, if l then "Connecting..." else "Sign in with Ethereum"⟩
            ⟨Handler.handleSSOLogin, l, if l then "Signing in..." else "Sign in with SSO"⟩ := by
  refine ⟨?_, ?_, fun addr l => rfl⟩
  · apply connectWallet_cases env
      (fun tr => tr.head? = some (Event.setLoading true) ∧
        tr.getLast? = some (Event.setLoading false) ∧
        tr.filter Event.isSetLoading = [Event.setLoading true, Event.setLoading false] ∧
        ∀ l, guardedByLoading l tr = true)
    case absent => intros; exact ⟨rfl, rfl, rfl, fun _ => rfl⟩
    case accepted => intros; exact ⟨rfl, rfl, rfl, fun _ => rfl⟩
    case refused => intros; exact ⟨rfl, rfl, rfl, fun _ => rfl⟩
    case providerFails =>
      intro e; rcases e with _ | ⟨_ | m, c⟩ <;> intros <;> exact ⟨rfl, rfl, rfl, fun _ => rfl⟩
    case signerFails =>
      intro e; rcases e with _ | ⟨_ | m, c⟩ <;> intros <;> exact ⟨rfl, rfl, rfl, fun _ => rfl⟩
    case addressFails =>
      intro e; rcases e with _ | ⟨_ | m, c⟩ <;> intros <;> exact ⟨rfl, rfl, rfl, fun _ => rfl⟩
    case networkFails =>
      intro addr e
      rcases e with _ | ⟨_ | m, c⟩ <;> intros <;> exact ⟨rfl, rfl, rfl, fun _ => rfl⟩
    case messageFails =>
      intro addr cid e
      rcases e with _ | ⟨_ | m, c⟩ <;> intros <;> exact ⟨rfl, rfl, rfl, fun _ => rfl⟩
    case prepareFails =>
      intro addr cid e
      rcases e with _ | ⟨_ | m, c⟩ <;> intros <;> exact ⟨rfl, rfl, rfl, fun _ => rfl⟩
    case signFails =>
      intro addr cid msg e
      rcases e with _ | ⟨_ | m, c⟩ <;> intros <;> exact ⟨rfl, rfl, rfl, fun _ => rfl⟩
    case fetchFails =>
      intro addr cid msg sig e
      rcases e with _ | ⟨_ | m, c⟩ <;> intros <;> exact ⟨rfl, rfl, rfl, fun _ => rfl⟩
  · have ht : (handleSSOLogin env).trace =
        Event.setLoading true ::
          Event.navigate "/api/auth/sso" (env.navigate "/api/auth/sso") ::
          (match env.navigate "/api/auth/sso" with
            | Outcome.ok _ => []
            | Outcome.throws e =>
                [Event.consoleError "SSO error:" e, Event.setLoading false]) := by
      cases h : env.navigate "/api/auth/sso" <;> simp [handleSSOLogin, h] <;> rfl
    refine ⟨ht, fun l => ?_⟩
    rw [ht]
    cases h : env.navigate "/api/auth/sso" <;>
      simp [guardedByLoading, Event.isInteraction, Event.isWalletCall]

end Digitionary
